import Mathlib

/-!
# Verification of the PaddleScience excerpt

Shallow embedding of the training/evaluation orchestration loop
(`examples/fsi/viv.py`), the weight-initializer library
(`ppsci/utils/initializer.py`) and the model factory
(`ppsci/arch/__init__.py`), with theorems settling the specification
claims about them.

Tensors are modelled as a shape (list of dimension sizes) together with a
flat data buffer; the external tensor framework's random samplers
(`paddle.uniform`, `paddle.normal`, `erfinv`) are external collaborators and
are modelled by explicit streams of draw values.
-/

namespace PaddleSci

/-- Error taxonomy of the initializer routines and the model factory:
`shapeError` is the `ValueError` raised on rank/size precondition
violations, `configError` the `ValueError` on an unknown mode or
nonlinearity, `zeroDivision` the Python `ZeroDivisionError` of a float
division by zero, `keyError`/`nameError` the Python exceptions of
`dict.pop` and `eval` in `build_model`. -/
inductive Err where
  | shapeError
  | configError
  | zeroDivision
  | keyError
  | nameError
  deriving DecidableEq, Repr

/-- A parameter tensor: an n-dimensional buffer of values.  `shape` is the
ordered list of dimension sizes and `data` the flat value buffer. -/
structure Tensor (α : Type) where
  shape : List ℕ
  data : List α
  deriving DecidableEq, Repr

/-- Number of elements of a tensor: the product of its dimension sizes. -/
def Tensor.numel (t : Tensor α) : ℕ := t.shape.prod

/-- Rank of a tensor (`tensor.ndim` in the source). -/
def Tensor.ndim (t : Tensor α) : ℕ := t.shape.length

/-- `_calculate_fan_in_and_fan_out` from `ppsci/utils/initializer.py`:
raises `ValueError` when `tensor.ndim < 2`; otherwise reads the two leading
dimensions as (input, output) channel counts — swapped when `reverse` is
set — and multiplies both by the receptive-field size, the product of the
remaining dimensions (`np.prod(tensor.shape[2:])`, which is `1` when
`ndim == 2`). -/
def calculateFanInAndFanOut (t : Tensor α) (reverse : Bool) :
    Except Err (ℕ × ℕ) :=
  if t.ndim < 2 then
    .error .shapeError
  else
    let numInputFmaps := if reverse then t.shape.headI else t.shape.tail.headI
    let numOutputFmaps := if reverse then t.shape.tail.headI else t.shape.headI
    let receptiveFieldSize := (t.shape.drop 2).prod
    .ok (numInputFmaps * receptiveFieldSize, numOutputFmaps * receptiveFieldSize)

/-- The product formula the specification claims for `fan_in · fan_out`:
(total element count divided by the product of the leading two dimensions)
times (the product of those two dimensions). -/
def specFanProduct (t : Tensor α) : ℕ :=
  (t.numel / (t.shape.headI * t.shape.tail.headI)) *
    (t.shape.headI * t.shape.tail.headI)

/-- A concrete rank-3 tensor of shape `[2, 3, 4]` (data values irrelevant
to the fan computation). -/
def tensor234 : Tensor ℚ := ⟨[2, 3, 4], []⟩

/-- `_no_grad_fill_` from `ppsci/utils/initializer.py`: replaces the
tensor's buffer by `paddle.full_like(tensor, value)`, a same-shaped tensor
holding `value` everywhere. -/
def noGradFill (t : Tensor α) (value : α) : Tensor α :=
  ⟨t.shape, List.replicate t.numel value⟩

/-- `constant_`: fill the tensor with a single value via `_no_grad_fill_`. -/
def constant_ (t : Tensor α) (value : α) : Tensor α :=
  noGradFill t value

/-- `ones_`: `_no_grad_fill_(tensor, 1)`. -/
def ones_ [One α] (t : Tensor α) : Tensor α :=
  noGradFill t 1

/-- `zeros_`: `_no_grad_fill_(tensor, 0)`. -/
def zeros_ [Zero α] (t : Tensor α) : Tensor α :=
  noGradFill t 0

/-- Modelled from the spec: `paddle.uniform(shape, dtype, min, max)`, the
external tensor framework's uniform sampler, absent from `src/`.  Per the
spec the uniform fill "Fails with `ShapeError` if tensor has zero
elements; otherwise always succeeds", producing a tensor of the requested
shape whose entries are independent draws from U(min, max); the draws are
modelled by the stream `draws` (the bounds `lo`, `hi` parameterize the
distribution of that stream and are constrained in the theorems). -/
def paddleUniform (shape : List ℕ) (lo hi : α) (draws : ℕ → α) :
    Except Err (Tensor α) :=
  if shape.prod = 0 then
    .error .shapeError
  else
    .ok ⟨shape, (List.range shape.prod).map draws⟩

/-- `_no_grad_uniform_` from `ppsci/utils/initializer.py`:
`tensor.set_value(paddle.uniform(shape=tensor.shape, min=a, max=b))` —
the tensor keeps its shape and takes the sampled buffer in place. -/
def noGradUniform (t : Tensor α) (a b : α) (draws : ℕ → α) :
    Except Err (Tensor α) :=
  match paddleUniform t.shape a b draws with
  | .error e => .error e
  | .ok s => .ok ⟨t.shape, s.data⟩

/-- `uniform_`: delegates to `_no_grad_uniform_`. -/
def uniform_ (t : Tensor α) (a b : α) (draws : ℕ → α) :
    Except Err (Tensor α) :=
  noGradUniform t a b draws

/-- Modelled from the spec: `paddle.normal(mean, std, shape)`, the external
normal sampler, absent from `src/`; draws from N(mean, std²) are modelled
as `mean + std · g` over a stream `gs` of standard normal draws. -/
def paddleNormal (shape : List ℕ) (mean std : ℝ) (gs : ℕ → ℝ) : Tensor ℝ :=
  ⟨shape, (List.range shape.prod).map (fun i => mean + std * gs i)⟩

/-- `_no_grad_normal_`: `tensor.set_value(paddle.normal(mean, std,
shape=tensor.shape))`. -/
def noGradNormal (t : Tensor ℝ) (mean std : ℝ) (gs : ℕ → ℝ) : Tensor ℝ :=
  ⟨t.shape, (paddleNormal t.shape mean std gs).data⟩

/-- The warning condition of `_no_grad_trunc_normal_`: the logger warning
is emitted iff `(mean < a - 2 * std) or (mean > b + 2 * std)`. -/
def truncNormalWarn (mean std a b : ℝ) : Prop :=
  mean < a - 2 * std ∨ mean > b + 2 * std

/-- `paddle.clip(x, min=a, max=b)`: clamp `x` into `[a, b]`. -/
def paddleClip (x lo hi : ℝ) : ℝ :=
  min (max x lo) hi

/-- Python float division as `_no_grad_trunc_normal_` performs it on the
truncation bounds: raises `ZeroDivisionError` when the divisor is zero. -/
noncomputable def pyDiv (x y : ℝ) : Except Err ℝ :=
  if y = 0 then .error .zeroDivision else .ok (x / y)

/-- The `norm_cdf` helper of `_no_grad_trunc_normal_`:
`(1.0 + math.erf(x / math.sqrt(2.0))) / 2.0`, with `erf` the external
error-functions library. -/
noncomputable def normCdf (erf : ℝ → ℝ) (x : ℝ) : ℝ :=
  (1 + erf (x / Real.sqrt 2)) / 2

/-- `_no_grad_trunc_normal_` from `ppsci/utils/initializer.py`: map the
truncation bounds through the standard normal CDF,
`l = norm_cdf((a - mean) / std)` and `u = norm_cdf((b - mean) / std)`
(the two divisions raise `ZeroDivisionError` when `std = 0`), draw
uniformly in `[2l−1, 2u−1]`, apply the in-place inverse error function,
multiply by `std·√2`, add `mean`, and clamp to `[a, b]`.  The uniform
sampler and `erfinv_` are operations of the external tensor framework:
the stream `us` models the drawn buffer (whose distribution the bounds
`2l−1`, `2u−1` shape) and `erfinv` the inverse error function applied
entrywise. -/
noncomputable def noGradTruncNormal (t : Tensor ℝ) (mean std a b : ℝ)
    (erf erfinv : ℝ → ℝ) (us : ℕ → ℝ) : Except Err (Tensor ℝ) :=
  match pyDiv (a - mean) std, pyDiv (b - mean) std with
  | .error e, _ => .error e
  | .ok _, .error e => .error e
  | .ok xa, .ok xb =>
    let l := normCdf erf xa
    let u := normCdf erf xb
    let lo := 2 * l - 1
    let hi := 2 * u - 1
    let _ := (lo, hi)
    .ok ⟨t.shape,
      (List.range t.numel).map (fun i =>
        paddleClip (erfinv (us i) * (std * Real.sqrt 2) + mean) a b)⟩

/-- `xavier_uniform_` from `ppsci/utils/initializer.py`: compute the fan
pair, `std = gain * sqrt(2 / (fan_in + fan_out))`, `k = sqrt(3) * std`,
then `_no_grad_uniform_(tensor, -k, k)`; a fan computation error (rank
below 2) propagates. -/
noncomputable def xavierUniform (t : Tensor ℝ) (gain : ℝ) (reverse : Bool)
    (draws : ℕ → ℝ) : Except Err (Tensor ℝ) :=
  match calculateFanInAndFanOut t reverse with
  | .error e => .error e
  | .ok (fanIn, fanOut) =>
    let std := gain * Real.sqrt (2 / ((fanIn : ℝ) + (fanOut : ℝ)))
    let k := Real.sqrt 3 * std
    noGradUniform t (-k) k draws

/-- `xavier_normal_` from `ppsci/utils/initializer.py`: compute the fan
pair, `std = gain * sqrt(2 / (fan_in + fan_out))`, then
`_no_grad_normal_(tensor, 0, std)`. -/
noncomputable def xavierNormal (t : Tensor ℝ) (gain : ℝ) (reverse : Bool)
    (gs : ℕ → ℝ) : Except Err (Tensor ℝ) :=
  match calculateFanInAndFanOut t reverse with
  | .error e => .error e
  | .ok (fanIn, fanOut) =>
    let std := gain * Real.sqrt (2 / ((fanIn : ℝ) + (fanOut : ℝ)))
    .ok (noGradNormal t 0 std gs)

/-- A scalar metric value as the driver handles it: either a finite float
or `float("inf")` (the per-epoch default when no evaluation ran). -/
inductive MetricVal where
  | inf
  | val (q : ℚ)
  deriving DecidableEq, Repr

/-- The float `<` comparison on metric values: every finite value is below
`inf`, and `inf < x` is false for every `x` (in particular `inf < inf`). -/
def MetricVal.lt : MetricVal → MetricVal → Bool
  | .inf, _ => false
  | .val _, .inf => true
  | .val p, .val q => decide (p < q)

/-- The float `≤` comparison on metric values. -/
def MetricVal.le : MetricVal → MetricVal → Bool
  | .inf, .inf => true
  | .inf, .val _ => false
  | .val _, .inf => true
  | .val p, .val q => decide (p ≤ q)

/-- The `best_metric` dictionary of the driver (also the record saved with
each checkpoint): a scalar metric together with the epoch it came from. -/
structure BestMetric where
  metric : MetricVal
  epoch : ℕ
  deriving DecidableEq, Repr

/-- A checkpoint tag of the driver: the strings `"best_model"`,
`f"epoch_{epoch_id}"` (whose epoch id the `epochCkpt` variant carries) and
`"latest"`. -/
inductive CkptTag where
  | bestModel
  | epochCkpt (epochId : ℕ)
  | latest
  deriving DecidableEq, Repr

/-- The string the driver passes to `save_checkpoint` for a tag. -/
def CkptTag.render : CkptTag → String
  | .bestModel => "best_model"
  | .epochCkpt n => "epoch_" ++ toString n
  | .latest => "latest"

/-- An observable action of one run of the training loop: an invocation of
the evaluation controller, or a checkpoint write with its tag and the
metric record passed to `save_checkpoint`. -/
inductive Event where
  | evalCall (epoch : ℕ)
  | save (tag : CkptTag) (record : BestMetric)
  deriving DecidableEq, Repr

/-- The scheduling configuration of the training loop in
`examples/fsi/viv.py` (`epochs`, `eval_during_train`, `eval_freq`,
`start_eval_epoch`, `save_freq`, hard-coded constants in the source,
carried here as explicit fields). -/
structure TrainCfg where
  epochs : ℕ
  evalDuringTrain : Bool
  evalFreq : ℕ
  startEvalEpoch : ℕ
  saveFreq : ℕ
  deriving DecidableEq, Repr

/-- The evaluation-cadence guard of the driver:
`eval_during_train and epoch_id % eval_freq == 0 and
epoch_id >= start_eval_epoch`. -/
def evalCond (cfg : TrainCfg) (epochId : ℕ) : Bool :=
  cfg.evalDuringTrain && epochId % cfg.evalFreq == 0 &&
    decide (epochId ≥ cfg.startEvalEpoch)

/-- One iteration of the epoch loop in `train` of `examples/fsi/viv.py`
(the injected per-epoch training strategy and the logging calls have no
observable effect modelled here).  `evalResult` is the scalar the
evaluation controller returns at a given epoch.  Per epoch: set
`cur_metric = inf`; if the evaluation cadence guard holds, call `eval`,
and when the result strictly improves the best record (float `<`), update
the record and write a `best_model` checkpoint with it; then, when
`save_freq > 0` and the epoch matches the checkpoint cadence, write an
`epoch_{N}` checkpoint with `{cur_metric, epoch_id}`; finally always write
a `latest` checkpoint with `{cur_metric, epoch_id}`. -/
def epochStep (cfg : TrainCfg) (evalResult : ℕ → ℚ) (best : BestMetric)
    (epochId : ℕ) : BestMetric × List Event :=
  let curMetric : MetricVal := .inf
  let (curMetric, best, evalEvents) :=
    if evalCond cfg epochId then
      let cur := MetricVal.val (evalResult epochId)
      if cur.lt best.metric then
        let best' : BestMetric := ⟨cur, epochId⟩
        (cur, best', [Event.evalCall epochId, Event.save .bestModel best'])
      else
        (cur, best, [Event.evalCall epochId])
    else
      (curMetric, best, [])
  let epochSaveEvents :=
    if cfg.saveFreq > 0 && epochId % cfg.saveFreq == 0 then
      [Event.save (.epochCkpt epochId) ⟨curMetric, epochId⟩]
    else
      []
  let latestSaveEvents := [Event.save .latest ⟨curMetric, epochId⟩]
  (best, evalEvents ++ epochSaveEvents ++ latestSaveEvents)

/-- One fold step of the epoch loop: run `epochStep` on the current best
record and append its events to the accumulated trace. -/
def loopStep (cfg : TrainCfg) (evalResult : ℕ → ℚ)
    (acc : BestMetric × List Event) (epochId : ℕ) :
    BestMetric × List Event :=
  let (best', events) := epochStep cfg evalResult acc.1 epochId
  (best', acc.2 ++ events)

/-- The epoch loop of `train` over epochs `1 .. epochs` starting from a
given best record, accumulating the observable events in order. -/
def trainLoopFrom (cfg : TrainCfg) (evalResult : ℕ → ℚ)
    (best : BestMetric) : BestMetric × List Event :=
  (List.range' 1 cfg.epochs).foldl (loopStep cfg evalResult) (best, [])

/-- The full run of `train`: the best record starts as
`{"metric": inf, "epoch": 0}`. -/
def trainLoop (cfg : TrainCfg) (evalResult : ℕ → ℚ) :
    BestMetric × List Event :=
  trainLoopFrom cfg evalResult ⟨.inf, 0⟩

/-- The epochs at which the evaluation controller was invoked, in order. -/
def evalEpochs (events : List Event) : List ℕ :=
  events.filterMap fun e =>
    match e with
    | .evalCall n => some n
    | .save _ _ => none

/-- The epochs (from the saved record) of the `"latest"` checkpoint
writes, in order. -/
def latestSaveEpochs (events : List Event) : List ℕ :=
  events.filterMap fun e =>
    match e with
    | .save .latest r => some r.epoch
    | _ => none

/-- The epoch ids of the `"epoch_{N}"` checkpoint writes, in order. -/
def epochCkptEpochs (events : List Event) : List ℕ :=
  events.filterMap fun e =>
    match e with
    | .save (.epochCkpt n) _ => some n
    | _ => none

/-- The `"best_model"` checkpoint records written, in order. -/
def bestModelSaves (events : List Event) : List BestMetric :=
  events.filterMap fun e =>
    match e with
    | .save .bestModel r => some r
    | _ => none

/-- The scenario configuration of the end-to-end claim: 5 total epochs,
evaluation cadence 2 starting at epoch 1, checkpoint cadence 3. -/
def scenarioCfg : TrainCfg :=
  ⟨5, true, 2, 1, 3⟩

/-- The mode of the model: training mode (`model.train()`) or inference
mode (`model.eval()`). -/
inductive Mode where
  | train
  | infer
  deriving DecidableEq, Repr

/-- Observable outcome of one run of the evaluation driver: the returned
(or propagated) result, the model's mode when control leaves the driver,
and the sequence of mode switches the driver performed, in order. -/
structure EvalOutcome where
  result : Except Err ℚ
  finalMode : Mode
  modeSwitches : List Mode

/-- The `eval` driver of `examples/fsi/viv.py`, reduced to its observable
mode discipline: it calls `solver.model.eval()` (switch to inference
mode), runs the injected evaluation strategy `solver.eval_func` once, and
— only on the straight-line path, there being no try/finally — calls
`solver.model.train()` and returns the result.  An exception from the
strategy propagates before the `model.train()` line is reached, so the
model stays in inference mode.  `startMode` is the mode the model is in
when the driver is entered. -/
def evalDriver (strategy : Except Err ℚ) (startMode : Mode) : EvalOutcome :=
  let _ := startMode
  match strategy with
  | .error e => ⟨.error e, .infer, [.infer]⟩
  | .ok r => ⟨.ok r, .train, [.infer, .train]⟩

/-- A value of the architecture configuration mapping handed to
`build_model` (string, numeric or boolean entry). -/
inductive CfgVal where
  | str (s : String)
  | num (q : ℚ)
  | flag (b : Bool)
  deriving DecidableEq, Repr

/-- The architecture names `eval(arch_cls)` can resolve in
`ppsci/arch/__init__.py`: the classes imported at module scope. -/
def archRegistry : List String :=
  ["MLP", "LorenzEmbedding", "PhysformerGPT2"]

/-- A constructed model: the architecture class that was dispatched and
the keyword arguments it was constructed with. -/
structure BuiltArch where
  clsName : String
  kwargs : List (String × CfgVal)
  deriving DecidableEq, Repr

/-- `dict.pop(k)` as it acts on the mapping: the entries with key `k` are
removed (a Python dict holds at most one). -/
def popKey (k : String) (cfg : List (String × CfgVal)) :
    List (String × CfgVal) :=
  cfg.filter (fun p => p.1 ≠ k)

/-- `build_model` from `ppsci/arch/__init__.py`: deep-copy the incoming
configuration, `pop` the `"name"` entry from the copy (raising `KeyError`
when absent), dispatch the class via `eval` over the module scope
(raising `NameError` for an unknown name), and construct it with the
remaining entries.  The second component is the caller's mapping as it
stands after the call: every operation acts on the copy, so it is the
original `cfg` on every path. -/
def build_model (cfg : List (String × CfgVal)) :
    Except Err BuiltArch × List (String × CfgVal) :=
  match cfg.lookup "name" with
  | none => (.error .keyError, cfg)
  | some v =>
    match v with
    | .str n =>
      if n ∈ archRegistry then (.ok ⟨n, popKey "name" cfg⟩, cfg)
      else (.error .nameError, cfg)
    | _ => (.error .nameError, cfg)

end PaddleSci

namespace PaddleSci

/-- C2 (counterexample): on the rank-3 shape `[2, 3, 4]`,
`_calculate_fan_in_and_fan_out` returns `(fan_in, fan_out) = (12, 8)`,
whose product `96` differs from the claimed formula
(total element count ÷ product of leading two dims) × (product of those
two dims) `= (24 / 6) · 6 = 24`. -/
theorem C2_fan_product_counterexample :
    calculateFanInAndFanOut tensor234 false = .ok (12, 8) ∧
    12 * 8 ≠ specFanProduct tensor234 :=
  ⟨rfl, by decide⟩

/-- C2 (amended): for every shape of rank ≥ 2, `fan_in_fan_out` succeeds
and the product fan_in·fan_out equals (product of the leading two
dimensions) times the square of the product of the remaining dimensions
(the receptive-field size), and calling with `reverse = true` returns
exactly the swapped pair of the `reverse = false` call. -/
theorem C2_fan_product_amended (s₀ s₁ : ℕ) (rest : List ℕ) (d : List ℚ) :
    ∃ p : ℕ × ℕ,
      calculateFanInAndFanOut (⟨s₀ :: s₁ :: rest, d⟩ : Tensor ℚ) false = .ok p ∧
      p.1 * p.2 = (s₀ * s₁) * rest.prod ^ 2 ∧
      calculateFanInAndFanOut (⟨s₀ :: s₁ :: rest, d⟩ : Tensor ℚ) true =
        .ok (p.2, p.1) := by
  refine ⟨(s₁ * rest.prod, s₀ * rest.prod), ?_, by ring, ?_⟩ <;>
    simp [calculateFanInAndFanOut, Tensor.ndim]

/-- C8: `_calculate_fan_in_and_fan_out` fails with the shape error exactly
when the tensor's rank is below 2, succeeds exactly when the rank is at
least 2, and its result depends only on the tensor's shape (it is a pure
computation that never touches, let alone mutates, the data buffer). -/
theorem C8_fan_rank_precondition (t : Tensor ℚ) (r : Bool) :
    (calculateFanInAndFanOut t r = .error .shapeError ↔ t.ndim < 2) ∧
    ((∃ p, calculateFanInAndFanOut t r = .ok p) ↔ 2 ≤ t.ndim) ∧
    (∀ u : Tensor ℚ, u.shape = t.shape →
      calculateFanInAndFanOut u r = calculateFanInAndFanOut t r) := by
  refine ⟨?_, ?_, ?_⟩
  · by_cases h : t.ndim < 2 <;> simp [calculateFanInAndFanOut, h]
  · by_cases h : t.ndim < 2 <;> simp [calculateFanInAndFanOut, h] <;> omega
  · intro u h
    simp [calculateFanInAndFanOut, Tensor.ndim, h]

/-- C8 witness: the shape-only dependence applied at the concrete shape
`[4, 7, 2]` with two different data buffers. -/
theorem C8_fan_rank_precondition_witness :
    calculateFanInAndFanOut (⟨[4, 7, 2], []⟩ : Tensor ℚ) false =
      calculateFanInAndFanOut (⟨[4, 7, 2], [1, 2]⟩ : Tensor ℚ) false :=
  (C8_fan_rank_precondition ⟨[4, 7, 2], [1, 2]⟩ false).2.2 ⟨[4, 7, 2], []⟩ rfl

/-- C9: `ones_` coincides with `constant_` at value 1 and `zeros_` with
`constant_` at value 0 — all three are the single-value fill routine
`_no_grad_fill_` — the fill preserves the shape, fills every element with
the given value, and is deterministic (none of the three consumes a
random source: they are plain functions of the tensor and the value). -/
theorem C9_fill_equivalence (t : Tensor ℚ) (v : ℚ) :
    ones_ t = constant_ t 1 ∧ zeros_ t = constant_ t 0 ∧
    (constant_ t v).shape = t.shape ∧
    ∀ x ∈ (constant_ t v).data, x = v := by
  refine ⟨rfl, rfl, rfl, fun x hx => ?_⟩
  exact List.eq_of_mem_replicate hx

/-- C4: assuming every draw of the external uniform sampler lies in
`[a, b]`, the uniform initializer fails with the shape error exactly when
the tensor has zero elements, and on every tensor with at least one
element it succeeds, filling the tensor in place (same shape, one drawn
value per element) with values all inside `[a, b]`. -/
theorem C4_uniform_zero_elements (t : Tensor ℚ) (a b : ℚ) (draws : ℕ → ℚ)
    (h : ∀ n, a ≤ draws n ∧ draws n ≤ b) :
    (uniform_ t a b draws = .error .shapeError ↔ t.numel = 0) ∧
    (t.numel ≠ 0 →
      ∃ u, uniform_ t a b draws = .ok u ∧ u.shape = t.shape ∧
        u.data.length = t.numel ∧ ∀ x ∈ u.data, a ≤ x ∧ x ≤ b) := by
  by_cases hz : t.numel = 0
  · simp [uniform_, noGradUniform, paddleUniform, Tensor.numel] at hz ⊢
    simp [hz]
  · refine ⟨?_, fun _ => ?_⟩
    · simp [uniform_, noGradUniform, paddleUniform, Tensor.numel] at hz ⊢
      simp [hz]
    · refine ⟨⟨t.shape, (List.range t.numel).map draws⟩, ?_, rfl, by simp, ?_⟩
      · simp [uniform_, noGradUniform, paddleUniform, Tensor.numel] at hz ⊢
        simp [hz]
      · intro x hx
        obtain ⟨n, _, rfl⟩ := List.mem_map.mp hx
        exact h n

/-- C4 witness: the uniform initializer at the two-element tensor of shape
`[2]`, bounds `[0, 1]`, and the constant draw stream `1/2`. -/
theorem C4_uniform_zero_elements_witness :
    (uniform_ (⟨[2], [3, 4]⟩ : Tensor ℚ) 0 1 (fun _ => 1/2) =
        .error .shapeError ↔ (⟨[2], [3, 4]⟩ : Tensor ℚ).numel = 0) ∧
    ((⟨[2], [3, 4]⟩ : Tensor ℚ).numel ≠ 0 →
      ∃ u, uniform_ (⟨[2], [3, 4]⟩ : Tensor ℚ) 0 1 (fun _ => 1/2) = .ok u ∧
        u.shape = (⟨[2], [3, 4]⟩ : Tensor ℚ).shape ∧
        u.data.length = (⟨[2], [3, 4]⟩ : Tensor ℚ).numel ∧
        ∀ x ∈ u.data, 0 ≤ x ∧ x ≤ 1) :=
  C4_uniform_zero_elements ⟨[2], [3, 4]⟩ 0 1 (fun _ => 1/2)
    (fun _ => by norm_num)

/-- C6 (counterexample): `truncated_normal` does raise for some std — at
`mean = 0`, `std = 0`, bounds `[-2, 2]` (so `a ≤ b` holds and the warning
condition does not even fire), the bound-mapping division
`(a - mean) / std` raises `ZeroDivisionError` instead of filling the
tensor. -/
theorem C6_trunc_normal_counterexample :
    noGradTruncNormal (⟨[1], [0]⟩ : Tensor ℝ) 0 0 (-2) 2
        (fun x => x) (fun x => x) (fun _ => 0) = .error .zeroDivision ∧
    ¬ truncNormalWarn 0 0 (-2) 2 ∧ (-2 : ℝ) ≤ 2 := by
  refine ⟨?_, ?_, by norm_num⟩
  · unfold noGradTruncNormal pyDiv
    norm_num
  · simp only [truncNormalWarn, not_or]
    constructor <;> norm_num

/-- C6 (amended): for every mean, every NONZERO std and bounds `a ≤ b`,
`truncated_normal` succeeds (the warning is a logged predicate, not an
exception), the warning condition holds exactly when the mean lies
outside `[a − 2·std, b + 2·std]`, and every value written into the tensor
lies within `[a, b]` thanks to the final clamp, whatever the
erfinv-transformed draws were; at `std = 0` the bound-mapping division
raises `ZeroDivisionError` instead. -/
theorem C6_trunc_normal_clamped_amended (t : Tensor ℝ) (mean std a b : ℝ)
    (erf erfinv : ℝ → ℝ) (us : ℕ → ℝ) (hstd : std ≠ 0) (hab : a ≤ b) :
    (truncNormalWarn mean std a b ↔
      mean ∉ Set.Icc (a - 2 * std) (b + 2 * std)) ∧
    ∃ r, noGradTruncNormal t mean std a b erf erfinv us = .ok r ∧
      r.shape = t.shape ∧
      ∀ x ∈ r.data, a ≤ x ∧ x ≤ b := by
  constructor
  · simp only [truncNormalWarn, Set.mem_Icc, not_and_or, not_le, gt_iff_lt]
  · unfold noGradTruncNormal pyDiv
    rw [if_neg hstd, if_neg hstd]
    refine ⟨_, rfl, rfl, fun x hx => ?_⟩
    simp only [List.mem_map] at hx
    obtain ⟨n, _, rfl⟩ := hx
    exact ⟨le_min (le_max_right _ _) hab, min_le_right _ _⟩

/-- C6 witness: the degenerate-but-nonzero-std configuration `mean = 10`,
`std = 1`, bounds `[-2, 2]` — the warning condition holds there, the fill
succeeds, and the written values still lie in `[-2, 2]`. -/
theorem C6_trunc_normal_clamped_amended_witness :
    truncNormalWarn 10 1 (-2) 2 ∧
    ((truncNormalWarn 10 1 (-2) 2 ↔
        (10 : ℝ) ∉ Set.Icc (-2 - 2 * 1) (2 + 2 * 1)) ∧
      ∃ r, noGradTruncNormal (⟨[1], [0]⟩ : Tensor ℝ) 10 1 (-2) 2
          (fun x => x) (fun x => x) (fun _ => 0) = .ok r ∧
        r.shape = (⟨[1], [0]⟩ : Tensor ℝ).shape ∧
        ∀ x ∈ r.data, -2 ≤ x ∧ x ≤ 2) :=
  ⟨Or.inr (by norm_num),
    C6_trunc_normal_clamped_amended ⟨[1], [0]⟩ 10 1 (-2) 2
      (fun x => x) (fun x => x) (fun _ => 0) (by norm_num) (by norm_num)⟩

/-- C7: on every tensor of rank ≥ 2 the Xavier initializers compute the
fan pair from the tensor's shape, set `std = gain·√(2/(fan_in+fan_out))`,
and the uniform variant delegates to the uniform fill with bounds
`(−√3·std, √3·std)` while the normal variant delegates to the normal fill
with mean 0 and standard deviation `std`. -/
theorem C7_xavier_formulas (s₀ s₁ : ℕ) (rest : List ℕ) (d : List ℝ)
    (gain : ℝ) (rev : Bool) (draws gs : ℕ → ℝ) :
    ∃ fanIn fanOut : ℕ,
      calculateFanInAndFanOut (⟨s₀ :: s₁ :: rest, d⟩ : Tensor ℝ) rev =
        .ok (fanIn, fanOut) ∧
      xavierUniform ⟨s₀ :: s₁ :: rest, d⟩ gain rev draws =
        noGradUniform ⟨s₀ :: s₁ :: rest, d⟩
          (-(Real.sqrt 3 * (gain * Real.sqrt (2 / ((fanIn : ℝ) + (fanOut : ℝ))))))
          (Real.sqrt 3 * (gain * Real.sqrt (2 / ((fanIn : ℝ) + (fanOut : ℝ)))))
          draws ∧
      xavierNormal ⟨s₀ :: s₁ :: rest, d⟩ gain rev gs =
        .ok (noGradNormal ⟨s₀ :: s₁ :: rest, d⟩ 0
          (gain * Real.sqrt (2 / ((fanIn : ℝ) + (fanOut : ℝ)))) gs) := by
  have hfan : calculateFanInAndFanOut (⟨s₀ :: s₁ :: rest, d⟩ : Tensor ℝ) rev =
      .ok ((if rev then s₀ else s₁) * rest.prod,
        (if rev then s₁ else s₀) * rest.prod) := by
    cases rev <;> simp [calculateFanInAndFanOut, Tensor.ndim]
  refine ⟨_, _, hfan, ?_, ?_⟩
  · unfold xavierUniform
    rw [hfan]
  · unfold xavierNormal
    rw [hfan]

/-- C9 witness: the fill equivalences evaluated on a concrete tensor. -/
theorem C9_fill_equivalence_witness :
    ones_ (⟨[2], [5, 6]⟩ : Tensor ℚ) = constant_ (⟨[2], [5, 6]⟩ : Tensor ℚ) 1 ∧
    zeros_ (⟨[2], [5, 6]⟩ : Tensor ℚ) = constant_ (⟨[2], [5, 6]⟩ : Tensor ℚ) 0 :=
  ⟨(C9_fill_equivalence ⟨[2], [5, 6]⟩ 3).1, (C9_fill_equivalence ⟨[2], [5, 6]⟩ 3).2.1⟩

/-- `MetricVal.le` is reflexive. -/
theorem MetricVal.le_refl (x : MetricVal) : x.le x = true := by
  cases x <;> simp [MetricVal.le]

/-- Float strict comparison implies the weak one on metric values. -/
theorem MetricVal.lt_imp_le {x y : MetricVal} (h : x.lt y = true) :
    x.le y = true := by
  cases x <;> cases y <;> simp [MetricVal.lt, MetricVal.le] at h ⊢
  exact le_of_lt h

/-- `MetricVal.le` is transitive. -/
theorem MetricVal.le_trans {x y z : MetricVal} (h₁ : x.le y = true)
    (h₂ : y.le z = true) : x.le z = true := by
  cases x <;> cases y <;> cases z <;> simp [MetricVal.le] at h₁ h₂ ⊢
  exact h₁.trans h₂

/-- One epoch of the loop never increases the best metric record. -/
theorem epochStep_best_le (cfg : TrainCfg) (m : ℕ → ℚ) (best : BestMetric)
    (e : ℕ) :
    MetricVal.le (epochStep cfg m best e).1.metric best.metric = true := by
  unfold epochStep
  by_cases hc : evalCond cfg e
  · by_cases hl : (MetricVal.val (m e)).lt best.metric = true
    · simp [hc, hl, MetricVal.lt_imp_le hl]
    · simp [hc, hl, MetricVal.le_refl]
  · simp [hc, MetricVal.le_refl]

/-- The first component of a loop step is the best record `epochStep`
computes. -/
theorem loopStep_fst (cfg : TrainCfg) (m : ℕ → ℚ)
    (acc : BestMetric × List Event) (e : ℕ) :
    (loopStep cfg m acc e).1 = (epochStep cfg m acc.1 e).1 := by
  unfold loopStep
  rcases h : epochStep cfg m acc.1 e with ⟨b', ev⟩
  simp [h]

/-- Folding the epoch loop over any epoch list never increases the best
metric record. -/
theorem foldl_loopStep_best_le (cfg : TrainCfg) (m : ℕ → ℚ) (l : List ℕ) :
    ∀ (best : BestMetric) (evs : List Event),
      MetricVal.le ((l.foldl (loopStep cfg m) (best, evs)).1.metric)
        best.metric = true := by
  induction l with
  | nil => intro best _; exact MetricVal.le_refl best.metric
  | cons x xs ih =>
    intro best evs
    simp only [List.foldl_cons]
    refine MetricVal.le_trans
      (ih (loopStep cfg m (best, evs) x).1 (loopStep cfg m (best, evs) x).2)
      ?_
    rw [loopStep_fst]
    exact epochStep_best_le cfg m best x

/-- C5: the best-metric record is non-increasing — across one epoch and
across the whole run from any starting record — it changes only at epochs
where the evaluation cadence guard holds and only when the evaluated
scalar is strictly below the stored best (float `<`, lower is better),
in which case it becomes the evaluated scalar with the current epoch and
exactly one `best_model` checkpoint write carries exactly the updated
record; at every other epoch the record is unchanged and no `best_model`
write happens. -/
theorem C5_best_metric_invariant (cfg : TrainCfg) (m : ℕ → ℚ)
    (best : BestMetric) (e : ℕ) :
    MetricVal.le (epochStep cfg m best e).1.metric best.metric = true ∧
    MetricVal.le (trainLoopFrom cfg m best).1.metric best.metric = true ∧
    (evalCond cfg e = false →
      (epochStep cfg m best e).1 = best ∧
      bestModelSaves (epochStep cfg m best e).2 = []) ∧
    (evalCond cfg e = true →
      ((MetricVal.val (m e)).lt best.metric = true →
        (epochStep cfg m best e).1 = ⟨.val (m e), e⟩ ∧
        bestModelSaves (epochStep cfg m best e).2 =
          [⟨.val (m e), e⟩]) ∧
      ((MetricVal.val (m e)).lt best.metric = false →
        (epochStep cfg m best e).1 = best ∧
        bestModelSaves (epochStep cfg m best e).2 = [])) := by
  refine ⟨epochStep_best_le cfg m best e, ?_, ?_, ?_⟩
  · unfold trainLoopFrom
    exact foldl_loopStep_best_le cfg m _ best []
  · intro h
    by_cases hs : (cfg.saveFreq > 0 && e % cfg.saveFreq == 0) = true <;>
      simp [epochStep, h, hs, bestModelSaves]
  · intro h
    constructor <;> intro hl <;>
      by_cases hs : (cfg.saveFreq > 0 && e % cfg.saveFreq == 0) = true <;>
      simp [epochStep, h, hs, hl, bestModelSaves]

/-- C5 witness: at epoch 2 of the scenario configuration with the
constant evaluation result 1 and the initial record `{inf, 0}`, the guard
holds, `1 < inf`, so the record becomes `{1, 2}` and exactly one
`best_model` write carries it. -/
theorem C5_best_metric_invariant_witness :
    (epochStep scenarioCfg (fun _ => 1) ⟨.inf, 0⟩ 2).1 =
      ⟨.val 1, 2⟩ ∧
    bestModelSaves (epochStep scenarioCfg (fun _ => 1) ⟨.inf, 0⟩ 2).2 =
      [⟨.val 1, 2⟩] :=
  ((C5_best_metric_invariant scenarioCfg (fun _ => 1) ⟨.inf, 0⟩ 2).2.2.2
    (by decide)).1 (by decide)

/-- C1: in the scenario run (5 epochs, eval cadence 2 from epoch 1,
checkpoint cadence 3), whatever scalars evaluation returns: the
evaluation controller is invoked exactly at the epochs of `1..5`
satisfying `e % 2 == 0 and e >= 1`, namely epochs 2 and 4; the `latest`
checkpoint is written exactly five times, once at the end of each epoch
1..5; and an `epoch_N` checkpoint is written at epoch 3 only. -/
theorem C1_end_to_end_schedule (m : ℕ → ℚ) :
    evalEpochs (trainLoop scenarioCfg m).2 =
      (List.range' 1 5).filter (fun e => e % 2 == 0 && decide (e ≥ 1)) ∧
    evalEpochs (trainLoop scenarioCfg m).2 = [2, 4] ∧
    latestSaveEpochs (trainLoop scenarioCfg m).2 = [1, 2, 3, 4, 5] ∧
    epochCkptEpochs (trainLoop scenarioCfg m).2 = [3] := by
  by_cases h : m 4 < m 2 <;>
    simp [trainLoop, trainLoopFrom, loopStep, epochStep, evalCond,
      scenarioCfg, evalEpochs, latestSaveEpochs, epochCkptEpochs,
      MetricVal.lt, List.range', h]

/-- C3 (counterexample): when the injected evaluation strategy raises, the
evaluation driver does NOT restore training mode — entered in training
mode with a failing strategy, the model is left in inference mode (the
driver has no try/finally around the strategy call). -/
theorem C3_mode_restore_counterexample :
    (evalDriver (.error .shapeError) Mode.train).finalMode ≠ Mode.train := by
  decide

/-- C3 (amended): the evaluation driver switches the model to inference
mode and runs one evaluation pass; after a successful pass it sets
training mode (switch sequence inference-then-training) and returns the
strategy's result, but when the strategy raises, the error propagates
with the model left in inference mode — the restore is not symmetric on
the error path. -/
theorem C3_mode_discipline_amended (strategy : Except Err ℚ)
    (startMode : Mode) :
    ((∃ r, strategy = .ok r) →
      (evalDriver strategy startMode).finalMode = Mode.train ∧
      (evalDriver strategy startMode).modeSwitches = [.infer, .train] ∧
      (evalDriver strategy startMode).result = strategy) ∧
    (∀ e, strategy = .error e →
      (evalDriver strategy startMode).finalMode = Mode.infer ∧
      (evalDriver strategy startMode).modeSwitches = [.infer] ∧
      (evalDriver strategy startMode).result = .error e) := by
  cases strategy <;> simp [evalDriver]

/-- C3 witness: the amended mode discipline applied to a successful
strategy returning `7`, entered in training mode. -/
theorem C3_mode_discipline_amended_witness :
    (evalDriver (.ok 7) Mode.train).finalMode = Mode.train ∧
    (evalDriver (.ok 7) Mode.train).modeSwitches = [.infer, .train] ∧
    (evalDriver (.ok 7) Mode.train).result = .ok 7 :=
  (C3_mode_discipline_amended (.ok 7) Mode.train).1 ⟨7, rfl⟩

/-- C10: `build_model` never mutates the caller's configuration mapping —
on every path (missing `"name"` key, unknown architecture name, success)
the caller-visible mapping after the call is the input mapping, the
`"name"` entry removal really removes it, but only from the copy the
constructed architecture receives. -/
theorem C10_build_model_no_mutation (cfg : List (String × CfgVal)) :
    (build_model cfg).2 = cfg ∧
    (∀ v : CfgVal, ("name", v) ∉ popKey "name" cfg) ∧
    (∀ a, (build_model cfg).1 = .ok a → a.kwargs = popKey "name" cfg) := by
  refine ⟨?_, ?_, ?_⟩
  · unfold build_model
    cases h : cfg.lookup "name" with
    | none => simp [h]
    | some v => cases v <;> simp [h] <;> split <;> rfl
  · intro v hv
    simp [popKey, List.mem_filter] at hv
  · intro a ha
    unfold build_model at ha
    cases h : cfg.lookup "name" with
    | none => simp [h] at ha
    | some v =>
      cases v with
      | str n =>
        simp only [h] at ha
        split at ha
        · cases ha
          rfl
        · cases ha
      | num q => simp [h] at ha
      | flag b => simp [h] at ha

/-- C10 witness: building an `MLP` from a concrete mapping leaves the
caller's mapping intact, and the constructed architecture received the
mapping with the `"name"` entry removed. -/
theorem C10_build_model_no_mutation_witness :
    (build_model [("name", .str "MLP"), ("hidden", .num 50)]).2 =
      [("name", .str "MLP"), ("hidden", .num 50)] ∧
    (⟨"MLP", [("hidden", CfgVal.num 50)]⟩ : BuiltArch).kwargs =
      popKey "name" [("name", .str "MLP"), ("hidden", .num 50)] :=
  ⟨(C10_build_model_no_mutation [("name", .str "MLP"), ("hidden", .num 50)]).1,
    (C10_build_model_no_mutation [("name", .str "MLP"), ("hidden", .num 50)]).2.2
      ⟨"MLP", [("hidden", .num 50)]⟩ rfl⟩

end PaddleSci
